import Mathlib

/-!
Shallow embedding of the Risk Assessment & Recommendation Pipeline of
`app.py` (outbreak-risk assessment service), together with theorems that
settle the specification claims about it.

Numeric values that the Python code handles as `float` are modelled as
rationals (`ℚ`); machine integers as `ℤ`/`ℕ`.  Python's `round(x, n)`
(banker's rounding, half to even) is modelled exactly on rationals.
-/

attribute [local semireducible] Rat.mul Rat.inv Rat.add Rat.sub

namespace Outbreak

/-- Python's `str.lower()` (the region keys are ASCII): lowercase each
character. -/
def pyLower (s : String) : String := ⟨s.data.map Char.toLower⟩

/-- Python's `str.strip()`: drop whitespace from both ends. -/
def pyStrip (s : String) : String :=
  ⟨((s.data.dropWhile Char.isWhitespace).reverse.dropWhile Char.isWhitespace).reverse⟩

/-- Python's `round` to an integer: round half to even (banker's rounding). -/
def roundHalfEven (q : ℚ) : ℤ :=
  let f : ℤ := ⌊q⌋
  if q - f < 1/2 then f
  else if 1/2 < q - f then f + 1
  else if f % 2 = 0 then f else f + 1

/-- Python's `round(x, 2)` on rationals. -/
def round2 (q : ℚ) : ℚ := (roundHalfEven (q * 100) : ℚ) / 100

/-- Python's `round(x, 1)` on rationals. -/
def round1 (q : ℚ) : ℚ := (roundHalfEven (q * 10) : ℚ) / 10

/-- Embedding of `compute_risk_level` from `app.py`: convert a probability (0–1) to a
human-friendly risk level string. -/
def compute_risk_level (probability : ℚ) : String :=
  if probability < 3/10 then "Low"
  else if probability < 7/10 then "Medium"
  else "High"

/-- Python's `region or "unknown"` / `p.region or "Unknown"`: a missing
(`None`) or empty string is falsy and replaced by the default. -/
def orDefault (region : Option String) (default : String) : String :=
  match region with
  | none => default
  | some s => if s = "" then default else s

/-- The region key used by the lookups in `app.py`:
`(region or "unknown").strip().lower()`. -/
def normalizeRegion (region : Option String) : String :=
  pyLower (pyStrip (orDefault region "unknown"))

/-- The `sample_data` dictionary of `get_region_aqi`, with the default 90
of `sample_data.get(region_key, 90)`. -/
def sampleAqi (region_key : String) : ℤ :=
  if region_key = "surat" then 130
  else if region_key = "ahmedabad" then 160
  else if region_key = "mumbai" then 140
  else if region_key = "delhi" then 220
  else if region_key = "pune" then 110
  else 90

/-- The region keys that appear in `sample_data` of `get_region_aqi`. -/
def knownAqiRegions : List String := ["surat", "ahmedabad", "mumbai", "delhi", "pune"]

/-- Embedding of `get_region_aqi` from `app.py`: map a (possibly missing) region string
to an AQI value and its category. -/
def get_region_aqi (region : Option String) : ℤ × String :=
  let aqi := sampleAqi (normalizeRegion region)
  let category :=
    if aqi ≤ 50 then "Good"
    else if aqi ≤ 100 then "Satisfactory"
    else if aqi ≤ 200 then "Moderate"
    else if aqi ≤ 300 then "Poor"
    else if aqi ≤ 400 then "Very Poor"
    else "Severe"
  (aqi, category)

/-- A facility descriptor, as in the `hospitals_map` of `app.py`. -/
structure Hospital where
  name : String
  phone : String
  address : String
deriving DecidableEq

/-- Embedding of `get_hospitals_for_region` from `app.py`: static demo list of
hospitals, defaulting to the empty list. -/
def get_hospitals_for_region (region : Option String) : List Hospital :=
  let region_key := normalizeRegion region
  if region_key = "surat" then
    [⟨"New Civil Hospital, Surat", "+91-261-XYZ-0001", "Ring Road, Surat"⟩,
     ⟨"SMIMER Hospital", "+91-261-XYZ-0002", "Dumas Road, Surat"⟩]
  else if region_key = "ahmedabad" then
    [⟨"Civil Hospital, Ahmedabad", "+91-79-XYZ-0001", "Asarwa, Ahmedabad"⟩,
     ⟨"Sardar Vallabhbhai Patel Hospital", "+91-79-XYZ-0002", "Ellisbridge, Ahmedabad"⟩]
  else []

/-- The three symptom categories of the `rates` dictionary in
`generate_recommendations`, in their fixed insertion order. -/
inductive Symptom where
  | Fever
  | Cough
  | Diarrhea
deriving DecidableEq

/-- One recommendation string appended by `generate_recommendations`.
Each constructor stands for one literal message of the source, carrying
the data interpolated into it (region, AQI value/category, count). -/
inductive Suggestion where
  /-- Message "Immediately alert public health authorities for {region} …" -/
  | alertAuthorities (region : String)
  /-- Message "Escalate testing capacity and prepare isolation facilities …" -/
  | escalateTesting
  /-- Message "Enable enhanced surveillance in {region} …" -/
  | enhancedSurveillance (region : String)
  /-- Message "Review hospital readiness (beds, oxygen, ICU) …" -/
  | reviewReadiness
  /-- Message "Maintain routine surveillance in {region} …" -/
  | routineSurveillance (region : String)
  /-- Message "Investigate clusters of fever in schools, hostels and workplaces …" -/
  | feverClusters
  /-- Message "Strengthen respiratory hygiene measures …" -/
  | respiratoryHygiene
  /-- Message "Investigate water and food safety …" -/
  | waterSafety
  /-- Message "Air quality in {region} is {cat} (AQI {value}). Advise masks outdoors …" -/
  | aqiStrongAdvisory (region : String) (category : String) (value : ℤ)
  /-- Message "Air quality in {region} is {cat} (AQI {value}). Consider public advisories …" -/
  | aqiModerateAdvisory (region : String) (category : String) (value : ℤ)
  /-- Message "Air quality in {region} is {cat} (AQI {value}). Maintain current environmental controls." -/
  | aqiMaintainControls (region : String) (category : String) (value : ℤ)
  /-- Message "No mapped hospitals found for this region. …" -/
  | noMappedHospitals
  /-- Message "Limited hospital coverage ({count} known facilities). …" -/
  | limitedCoverage (count : ℕ)
  /-- Message "Coordinate with listed hospitals to ensure triage, isolation, …" -/
  | coordinateHospitals
  /-- Message "Standardize daily data reporting (same time, same fields) …" -/
  | standardizeReporting
deriving DecidableEq

/-- The `features` dictionary passed to `generate_recommendations`. -/
structure FeaturesDict where
  fever_cases : ℚ
  cough_cases : ℚ
  diarrhea_cases : ℚ
  region_population : ℚ
deriving DecidableEq

/-- The rate denominator of `generate_recommendations`:
`pop = max(features["region_population"], 1)`. -/
def popDenom (region_population : ℚ) : ℚ := max region_population 1

/-- The three per-10,000 rates of `generate_recommendations`:
`rate = (count / pop) * 10000` with `pop = max(population, 1)`. -/
def symptomRates (features : FeaturesDict) : ℚ × ℚ × ℚ :=
  let pop := popDenom features.region_population
  ((features.fever_cases / pop) * 10000,
   (features.cough_cases / pop) * 10000,
   (features.diarrhea_cases / pop) * 10000)

/-- Embedding of `max(rates, key=rates.get)` over the insertion-ordered dictionary
`{"Fever": …, "Cough": …, "Diarrhea": …}`: Python's `max` scans keys in
insertion order and keeps the current key unless a later key is strictly
greater. -/
def topSymptom (fever_rate cough_rate diarrhea_rate : ℚ) : Symptom :=
  let best := if cough_rate > fever_rate then Symptom.Cough else Symptom.Fever
  let best_rate := if cough_rate > fever_rate then cough_rate else fever_rate
  if diarrhea_rate > best_rate then Symptom.Diarrhea else best

/-- The `---- outbreak risk based ----` block of `generate_recommendations`:
High appends two items, Medium two items, anything else (the `else`
branch, in practice Low) one item. -/
def riskBlock (risk_level region : String) : List Suggestion :=
  if risk_level = "High" then
    [.alertAuthorities region, .escalateTesting]
  else if risk_level = "Medium" then
    [.enhancedSurveillance region, .reviewReadiness]
  else
    [.routineSurveillance region]

/-- The `---- symptom-based ----` block of `generate_recommendations`:
one item chosen by the dominant symptom (Diarrhea is the implicit
`else`). -/
def symptomBlock (top : Symptom) : List Suggestion :=
  match top with
  | .Fever => [.feverClusters]
  | .Cough => [.respiratoryHygiene]
  | .Diarrhea => [.waterSafety]

/-- The `---- AQI-based ----` block of `generate_recommendations`: the
source guards it with `if aqi_value is not None` and then branches on
the `> 200` / `> 100` thresholds. -/
def aqiBlock (region aqi_category : String) : Option ℤ → List Suggestion
  | none => []
  | some v =>
    if v > 200 then [.aqiStrongAdvisory region aqi_category v]
    else if v > 100 then [.aqiModerateAdvisory region aqi_category v]
    else [.aqiMaintainControls region aqi_category v]

/-- The `---- hospital-based ----` block of `generate_recommendations`:
zero facilities, or limited coverage under Medium/High risk, or the
generic coordination item. -/
def hospitalBlock (risk_level : String) (hospital_count : ℕ) : List Suggestion :=
  if hospital_count = 0 then [.noMappedHospitals]
  else if hospital_count ≤ 2 ∧ (risk_level = "Medium" ∨ risk_level = "High") then
    [.limitedCoverage hospital_count]
  else [.coordinateHospitals]

/-- Embedding of `generate_recommendations` from `app.py`.  The source builds the list
by successive `append`s in five blocks (risk, symptom, AQI, hospital,
data quality); the embedding concatenates the blocks in the same
order. -/
def generate_recommendations (risk_level : String) (region : String)
    (features : FeaturesDict) (aqi_value : Option ℤ) (aqi_category : String)
    (hospital_count : ℕ) : List Suggestion :=
  let rates := symptomRates features
  let top := topSymptom rates.1 rates.2.1 rates.2.2
  riskBlock risk_level region ++ symptomBlock top ++
    aqiBlock region aqi_category aqi_value ++
    hospitalBlock risk_level hospital_count ++ [.standardizeReporting]

/-- Python's `int()` applied to a float: truncation toward zero. -/
def pyInt (q : ℚ) : ℤ := if q < 0 then ⌈q⌉ else ⌊q⌋

/-- The JSON body consumed by `api_predict`.  Each numeric field is
`none` when the key is absent (Python raises `KeyError`), `some none`
when present but not coercible by `float()` (Python raises
`ValueError`), and `some (some q)` when it carries the numeric value
`q`. -/
structure ApiRequest where
  region : Option String
  fever_cases : Option (Option ℚ)
  cough_cases : Option (Option ℚ)
  diarrhea_cases : Option (Option ℚ)
  region_population : Option (Option ℚ)
deriving DecidableEq

/-- The failure modes of `api_predict`: the early `Model not trained`
500 response, the `Missing field: …` 400 response (naming the field) and
the generic `Invalid numeric values` 400 response. -/
inductive ApiError where
  | modelNotTrained
  | missingField (field : String)
  | invalidNumeric
deriving DecidableEq

/-- One `float(data[name])` step of `api_predict`. -/
def parseField (name : String) (v : Option (Option ℚ)) : Except ApiError ℚ :=
  match v with
  | none => .error (.missingField name)
  | some none => .error .invalidNumeric
  | some (some q) => .ok q

/-- The `try` block of `api_predict`: the four `float(data[...])`
coercions, in source order, stopping at the first failure. -/
def parseFields (req : ApiRequest) : Except ApiError (ℚ × ℚ × ℚ × ℚ) := do
  let fever ← parseField "fever_cases" req.fever_cases
  let cough ← parseField "cough_cases" req.cough_cases
  let diarrhea ← parseField "diarrhea_cases" req.diarrhea_cases
  let population ← parseField "region_population" req.region_population
  return (fever, cough, diarrhea, population)

/-- The JSON object returned by `api_predict`. -/
structure ApiResponse where
  prediction : ℕ
  probability : ℚ
  risk_level : String
  aqi_value : ℤ
  aqi_category : String
  hospitals : List Hospital
  suggestions : List Suggestion
deriving DecidableEq

/-- The `Prediction` row persisted by `api_predict` (the fields the core
logic writes; timestamp and user id are plumbing). -/
structure PredictionRecord where
  region : String
  fever_cases : ℤ
  cough_cases : ℤ
  diarrhea_cases : ℤ
  region_population : ℤ
  prediction : ℕ
  probability : ℚ
  risk_level : String
  aqi_value : ℤ
  aqi_category : String
deriving DecidableEq

/-- The classifier oracle: `model.predict_proba(features)[0][1]` over the
fixed-order feature vector, returning the positive-class probability. -/
def Oracle : Type := List ℚ → ℚ

/-- The post-validation body of `api_predict`, from
`proba = model.predict_proba(...)` down to the constructed `Prediction`
row and JSON response. -/
def assessCore (proba : ℚ) (region : String)
    (fever cough diarrhea population : ℚ) : ApiResponse × PredictionRecord :=
  let prediction_val : ℕ := if proba > 1/2 then 1 else 0
  let risk_level := compute_risk_level proba
  let probability_percent := round2 (proba * 100)
  let aqi := get_region_aqi (some region)
  let hospitals := get_hospitals_for_region (some region)
  let suggestions := generate_recommendations risk_level region
    ⟨fever, cough, diarrhea, population⟩ (some aqi.1) aqi.2 hospitals.length
  (⟨prediction_val, probability_percent, risk_level, aqi.1, aqi.2, hospitals, suggestions⟩,
   ⟨region, pyInt fever, pyInt cough, pyInt diarrhea, pyInt population,
    prediction_val, probability_percent, risk_level, aqi.1, aqi.2⟩)

/-- Embedding of `api_predict` from `app.py`, with the persistent store made explicit:
it returns the HTTP-level outcome together with the store after the
request (`db.session.add` + `commit` append exactly one row on success,
nothing on failure).  The model check precedes all parsing and
computation, as in the source. -/
def api_predict (model : Option Oracle) (req : ApiRequest)
    (store : List PredictionRecord) :
    Except ApiError ApiResponse × List PredictionRecord :=
  match model with
  | none => (.error .modelNotTrained, store)
  | some m =>
    match parseFields req with
    | .error e => (.error e, store)
    | .ok (fever, cough, diarrhea, population) =>
      let region := req.region.getD "Unknown"
      let proba := m [fever, cough, diarrhea, population]
      let core := assessCore proba region fever cough diarrhea population
      (.ok core.1, store ++ [core.2])

/-- The risk tier attached to a persisted record.  `compute_risk_level`
only ever produces the three strings `"Low"`, `"Medium"`, `"High"`, so
the dashboard's records carry the tier as an enumeration (the source
indexes `region_stats[region][p.risk_level]` with exactly these keys). -/
inductive Tier where
  | Low
  | Medium
  | High
deriving DecidableEq

/-- The fields of a persisted record that the `dashboard` view reads. -/
structure DashRecord where
  region : Option String
  risk_level : Tier
deriving DecidableEq

/-- Embedding of `p.region or "Unknown"`: the grouping label of a record. -/
def effRegion (r : DashRecord) : String := orDefault r.region "Unknown"

/-- Per-region tier counters `(low, medium, high)`. -/
def bumpTier (c : ℕ × ℕ × ℕ) : Tier → ℕ × ℕ × ℕ
  | .Low => (c.1 + 1, c.2.1, c.2.2)
  | .Medium => (c.1, c.2.1 + 1, c.2.2)
  | .High => (c.1, c.2.1, c.2.2 + 1)

/-- One `region_stats[region][p.risk_level] += 1` step on the
insertion-ordered `defaultdict`: update the existing entry, or append a
fresh one (the `defaultdict` default is all-zero counters). -/
def addRecord (stats : List (String × (ℕ × ℕ × ℕ))) (region : String)
    (t : Tier) : List (String × (ℕ × ℕ × ℕ)) :=
  match stats with
  | [] => [(region, bumpTier (0, 0, 0) t)]
  | (r, c) :: rest =>
    if r = region then (r, bumpTier c t) :: rest
    else (r, c) :: addRecord rest region t

/-- The `region_stats` loop of `dashboard`: fold the user's records into
insertion-ordered per-region tier counts. -/
def regionStats (records : List DashRecord) : List (String × (ℕ × ℕ × ℕ)) :=
  records.foldl (fun st r => addRecord st (effRegion r) r.risk_level) []

/-- One entry of `region_summary` in `dashboard`. -/
structure RegionSummary where
  region : String
  total_predictions : ℕ
  high_count : ℕ
  high_percent : ℚ
deriving DecidableEq

/-- The body of the `region_summary` loop of `dashboard`:
`high_percent = (high / total) * 100 if total > 0 else 0.0`, stored
rounded to one decimal. -/
def mkSummary (region : String) (c : ℕ × ℕ × ℕ) : RegionSummary :=
  let total := c.1 + c.2.1 + c.2.2
  let high := c.2.2
  let high_percent : ℚ := if 0 < total then ((high : ℚ) / (total : ℚ)) * 100 else 0
  ⟨region, total, high, round1 high_percent⟩

/-- The sort key of `dashboard`:
`region_summary.sort(key=lambda x: (-x["high_percent"], -x["total_predictions"]))`,
i.e. ascending in the negated pair: descending percentage, then
descending total. -/
def summaryLE (a b : RegionSummary) : Prop :=
  b.high_percent < a.high_percent ∨
    (a.high_percent = b.high_percent ∧ b.total_predictions ≤ a.total_predictions)

instance : DecidableRel summaryLE := fun a b => by
  unfold summaryLE; infer_instance

instance : IsTotal RegionSummary summaryLE where
  total a b := by
    unfold summaryLE
    rcases lt_trichotomy a.high_percent b.high_percent with h | h | h
    · exact Or.inr (Or.inl h)
    · rcases le_total a.total_predictions b.total_predictions with h2 | h2
      · exact Or.inr (Or.inr ⟨h.symm, h2⟩)
      · exact Or.inl (Or.inr ⟨h, h2⟩)
    · exact Or.inl (Or.inl h)

instance : IsTrans RegionSummary summaryLE where
  trans a b c hab hbc := by
    unfold summaryLE at *
    rcases hab with h1 | ⟨h1, h1t⟩ <;> rcases hbc with h2 | ⟨h2, h2t⟩
    · exact Or.inl (h2.trans h1)
    · exact Or.inl (h2 ▸ h1)
    · exact Or.inl (h1 ▸ h2)
    · exact Or.inr ⟨h1.trans h2, h2t.trans h1t⟩

/-- The region-aggregation core of `dashboard` in `app.py`: group the
records by region label, compute totals/High counts/High percentage, and
sort.  Python's `list.sort` is stable; a stable sort's output is
determined by the comparator and the input order, so the stable
`insertionSort` gives the same list. -/
def dashboard (records : List DashRecord) : List RegionSummary :=
  ((regionStats records).map fun rc => mkSummary rc.1 rc.2).insertionSort summaryLE

/-! ### Specification-side definitions

These follow the wording of the specification (not the source); the
refinement theorems below compare them with the embedded code. -/

/-- The fixed AQI breakpoint table of spec §3: `≤50 Good, ≤100
Satisfactory, ≤200 Moderate, ≤300 Poor, ≤400 Very Poor, else Severe`. -/
def specAqiCategory (aqi : ℤ) : String :=
  if aqi ≤ 50 then "Good"
  else if aqi ≤ 100 then "Satisfactory"
  else if aqi ≤ 200 then "Moderate"
  else if aqi ≤ 300 then "Poor"
  else if aqi ≤ 400 then "Very Poor"
  else "Severe"

/-- The dominant-symptom selection as the specification words it: the
symptom with the strictly highest rate, ties broken by the fixed order
Fever → Cough → Diarrhea (the first symptom in that order whose rate is
at least both others). -/
def specSelectSymptom (fever_rate cough_rate diarrhea_rate : ℚ) : Symptom :=
  if cough_rate ≤ fever_rate ∧ diarrhea_rate ≤ fever_rate then .Fever
  else if diarrhea_rate ≤ cough_rate then .Cough
  else .Diarrhea

/-- Classifier for stage-1 items of the recommendation list
(tier-driven outbreak-response directives). -/
def isTierItem : Suggestion → Bool
  | .alertAuthorities _ => true
  | .escalateTesting => true
  | .enhancedSurveillance _ => true
  | .reviewReadiness => true
  | .routineSurveillance _ => true
  | _ => false

/-- Classifier for stage-2 items (symptom-specific directives). -/
def isSymptomItem : Suggestion → Bool
  | .feverClusters => true
  | .respiratoryHygiene => true
  | .waterSafety => true
  | _ => false

/-- Classifier for stage-3 items (air-quality advisories). -/
def isAirQualityItem : Suggestion → Bool
  | .aqiStrongAdvisory _ _ _ => true
  | .aqiModerateAdvisory _ _ _ => true
  | .aqiMaintainControls _ _ _ => true
  | _ => false

/-- Classifier for stage-4 items (facility-coverage directives). -/
def isFacilityItem : Suggestion → Bool
  | .noMappedHospitals => true
  | .limitedCoverage _ => true
  | .coordinateHospitals => true
  | _ => false

/-- A request field that is present and numerically coercible. -/
def numericPresent (v : Option (Option ℚ)) : Prop := ∃ q, v = some (some q)

/-! ### Helper lemmas -/

theorem compute_risk_level_low_iff (p : ℚ) :
    compute_risk_level p = "Low" ↔ p < 3/10 := by
  unfold compute_risk_level
  split_ifs with h1 h2 <;> simp_all

theorem compute_risk_level_medium_iff (p : ℚ) :
    compute_risk_level p = "Medium" ↔ 3/10 ≤ p ∧ p < 7/10 := by
  unfold compute_risk_level
  split_ifs with h1 h2 <;> simp_all

theorem compute_risk_level_high_iff (p : ℚ) :
    compute_risk_level p = "High" ↔ 7/10 ≤ p := by
  unfold compute_risk_level
  split_ifs with h1 h2 <;> simp_all
  linarith

/-! ### Claim theorems -/

/-- C1: for every probability `p`, `compute_risk_level` returns exactly
one tier, determined by the closed-interval boundary checks
`Low ↔ p < 0.30`, `Medium ↔ 0.30 ≤ p < 0.70`, `High ↔ p ≥ 0.70`; in
particular `tier(0.30) = Medium` and `tier(0.70) = High`.  (Stated for
all rationals, which subsumes `p ∈ [0, 1]`.) -/
theorem risk_tier_boundaries (p : ℚ) :
    (compute_risk_level p = "Low" ↔ p < 3/10) ∧
    (compute_risk_level p = "Medium" ↔ 3/10 ≤ p ∧ p < 7/10) ∧
    (compute_risk_level p = "High" ↔ 7/10 ≤ p) ∧
    compute_risk_level (3/10) = "Medium" ∧
    compute_risk_level (7/10) = "High" :=
  ⟨compute_risk_level_low_iff p, compute_risk_level_medium_iff p,
   compute_risk_level_high_iff p, by decide, by decide⟩

/-- C7: the environmental lookup is total over any (even missing) region
string, its returned category is the fixed breakpoint function of its
returned value, and an unknown or empty or missing region resolves to
the default value 90 with category "Satisfactory". -/
theorem region_aqi_total_and_consistent (region : Option String) :
    (get_region_aqi region).2 = specAqiCategory (get_region_aqi region).1 ∧
    (normalizeRegion region ∉ knownAqiRegions →
      get_region_aqi region = (90, "Satisfactory")) ∧
    get_region_aqi none = (90, "Satisfactory") ∧
    get_region_aqi (some "") = (90, "Satisfactory") := by
  refine ⟨rfl, ?_, by decide, by decide⟩
  intro h
  simp only [knownAqiRegions, List.mem_cons, List.not_mem_nil, or_false, not_or] at h
  obtain ⟨h1, h2, h3, h4, h5⟩ := h
  simp [get_region_aqi, sampleAqi, h1, h2, h3, h4, h5]

/-- Witness for C7: the unknown region "Chennai" resolves to the default
(90, "Satisfactory"). -/
theorem region_aqi_total_and_consistent_witness :
    normalizeRegion (some "Chennai") ∉ knownAqiRegions ∧
    get_region_aqi (some "Chennai") = (90, "Satisfactory") :=
  ⟨by decide, (region_aqi_total_and_consistent (some "Chennai")).2.1 (by decide)⟩

theorem riskBlock_length (risk_level region : String) :
    (riskBlock risk_level region).length =
      (if risk_level = "High" ∨ risk_level = "Medium" then 2 else 1) := by
  unfold riskBlock
  split_ifs with h1 h2 h3 <;> simp_all

theorem riskBlock_items (risk_level region : String) :
    (riskBlock risk_level region).all isTierItem = true := by
  unfold riskBlock
  split_ifs <;> rfl

theorem symptomBlock_singleton (t : Symptom) :
    ∃ s, symptomBlock t = [s] ∧ isSymptomItem s = true := by
  cases t <;> exact ⟨_, rfl, rfl⟩

theorem aqiBlock_singleton (region aqi_category : String) (v : ℤ) :
    ∃ a, aqiBlock region aqi_category (some v) = [a] ∧ isAirQualityItem a = true := by
  rw [aqiBlock]
  split_ifs <;> exact ⟨_, rfl, rfl⟩

theorem hospitalBlock_singleton (risk_level : String) (hospital_count : ℕ) :
    ∃ f, hospitalBlock risk_level hospital_count = [f] ∧ isFacilityItem f = true := by
  unfold hospitalBlock
  split_ifs <;> exact ⟨_, rfl, rfl⟩

/-- C2: with the AQI value present (as the pipeline always passes it),
the recommendation list is the tier-driven items (2 for High or Medium,
1 otherwise), then one symptom item, one air-quality item, one
facility-coverage item, and the fixed data-quality item, in that order;
hence its length is 6 for High/Medium and 5 otherwise (in particular for
Low). -/
theorem recommendations_shape (risk_level region : String) (features : FeaturesDict)
    (v : ℤ) (aqi_category : String) (hospital_count : ℕ) :
    (generate_recommendations risk_level region features (some v) aqi_category
        hospital_count).length =
      (if risk_level = "High" ∨ risk_level = "Medium" then 6 else 5) ∧
    ∃ tierItems symptomItem airItem facilityItem,
      generate_recommendations risk_level region features (some v) aqi_category
          hospital_count =
        tierItems ++ [symptomItem, airItem, facilityItem, Suggestion.standardizeReporting] ∧
      tierItems.length = (if risk_level = "High" ∨ risk_level = "Medium" then 2 else 1) ∧
      tierItems.all isTierItem = true ∧
      isSymptomItem symptomItem = true ∧
      isAirQualityItem airItem = true ∧
      isFacilityItem facilityItem = true := by
  obtain ⟨s, hs, hs2⟩ := symptomBlock_singleton
    (topSymptom (symptomRates features).1 (symptomRates features).2.1
      (symptomRates features).2.2)
  obtain ⟨a, ha, ha2⟩ := aqiBlock_singleton region aqi_category v
  obtain ⟨f, hf, hf2⟩ := hospitalBlock_singleton risk_level hospital_count
  constructor
  · simp only [generate_recommendations, hs, ha, hf, List.length_append,
      riskBlock_length, List.length_singleton, List.length_cons]
    split_ifs <;> rfl
  · refine ⟨riskBlock risk_level region, s, a, f, ?_,
      riskBlock_length risk_level region, riskBlock_items risk_level region,
      hs2, ha2, hf2⟩
    simp [generate_recommendations, hs, ha, hf]

/-- Witness for C2: a concrete High-tier call produces a 6-item list. -/
theorem recommendations_shape_witness :
    (generate_recommendations "High" "Surat" ⟨50, 10, 5, 10000⟩ (some 130)
        "Moderate" 2).length = 6 := by
  simpa using
    (recommendations_shape "High" "Surat" ⟨50, 10, 5, 10000⟩ 130 "Moderate" 2).1

theorem topSymptom_eq_spec (fr cr dr : ℚ) :
    topSymptom fr cr dr = specSelectSymptom fr cr dr := by
  unfold topSymptom specSelectSymptom
  by_cases hcf : cr > fr
  · by_cases hdc : dr > cr
    · have h1 : ¬(cr ≤ fr ∧ dr ≤ fr) := fun h => absurd hcf (not_lt.2 h.1)
      simp [hcf, hdc, h1, not_le.2 hdc]
    · have h1 : ¬(cr ≤ fr ∧ dr ≤ fr) := fun h => absurd hcf (not_lt.2 h.1)
      simp [hcf, hdc, h1, not_lt.1 hdc]
  · by_cases hdf : dr > fr
    · have h1 : ¬(cr ≤ fr ∧ dr ≤ fr) := fun h => absurd hdf (not_lt.2 h.2)
      have h2 : ¬(dr ≤ cr) := not_le.2 (lt_of_le_of_lt (not_lt.1 hcf) hdf)
      simp [hcf, hdf, h1, h2]
    · have h1 : cr ≤ fr ∧ dr ≤ fr := ⟨not_lt.1 hcf, not_lt.1 hdf⟩
      simp [hcf, hdf, h1]

theorem riskBlock_no_symptom_item (risk_level region : String) :
    (riskBlock risk_level region).filter isSymptomItem = [] := by
  unfold riskBlock
  split_ifs <;> rfl

theorem aqiBlock_no_symptom_item (region aqi_category : String) (v : ℤ) :
    (aqiBlock region aqi_category (some v)).filter isSymptomItem = [] := by
  rw [aqiBlock]
  split_ifs <;> rfl

theorem hospitalBlock_no_symptom_item (risk_level : String) (hospital_count : ℕ) :
    (hospitalBlock risk_level hospital_count).filter isSymptomItem = [] := by
  unfold hospitalBlock
  split_ifs <;> rfl

theorem symptomBlock_filter_self (t : Symptom) :
    (symptomBlock t).filter isSymptomItem = symptomBlock t := by
  cases t <;> rfl

theorem symptomBlock_length (t : Symptom) : (symptomBlock t).length = 1 := by
  cases t <;> rfl

/-- C3: the synthesizer computes per-10,000 rates as
`(count / max(population, 1)) * 10000`, emits exactly one symptom item,
and the selection is the symptom of strictly highest rate with ties
broken in the fixed order Fever → Cough → Diarrhea (an exact three-way
tie selects Fever). -/
theorem dominant_symptom_selection (features : FeaturesDict)
    (risk_level region : String) (v : ℤ) (aqi_category : String)
    (hospital_count : ℕ) :
    symptomRates features =
      ((features.fever_cases / max features.region_population 1) * 10000,
       (features.cough_cases / max features.region_population 1) * 10000,
       (features.diarrhea_cases / max features.region_population 1) * 10000) ∧
    (∀ fr cr dr : ℚ, topSymptom fr cr dr = specSelectSymptom fr cr dr) ∧
    (∀ q : ℚ, topSymptom q q q = Symptom.Fever) ∧
    (generate_recommendations risk_level region features (some v) aqi_category
        hospital_count).countP isSymptomItem = 1 ∧
    (generate_recommendations risk_level region features (some v) aqi_category
        hospital_count).filter isSymptomItem =
      symptomBlock (specSelectSymptom (symptomRates features).1
        (symptomRates features).2.1 (symptomRates features).2.2) := by
  have hfilter :
      (generate_recommendations risk_level region features (some v) aqi_category
          hospital_count).filter isSymptomItem =
        symptomBlock (specSelectSymptom (symptomRates features).1
          (symptomRates features).2.1 (symptomRates features).2.2) := by
    simp only [generate_recommendations, List.filter_append,
      riskBlock_no_symptom_item, aqiBlock_no_symptom_item,
      hospitalBlock_no_symptom_item, symptomBlock_filter_self,
      topSymptom_eq_spec]
    simp [isSymptomItem]
  refine ⟨rfl, topSymptom_eq_spec, ?_, ?_, hfilter⟩
  · intro q
    simp [topSymptom_eq_spec, specSelectSymptom]
  · rw [List.countP_eq_length_filter, hfilter, symptomBlock_length]

/-- Witness for C3: with fever dominant (scenario A) the symptom item is
the fever-cluster investigation. -/
theorem dominant_symptom_selection_witness :
    (generate_recommendations "High" "Surat" ⟨50, 10, 5, 10000⟩ (some 130)
        "Moderate" 2).filter isSymptomItem = [Suggestion.feverClusters] := by
  have h := (dominant_symptom_selection ⟨50, 10, 5, 10000⟩ "High" "Surat" 130
    "Moderate" 2).2.2.2.2
  rw [h]
  decide

/-- C10: the rate denominator of `generate_recommendations` is
`max(population, 1) ≥ 1`, hence nonzero, for every population including
zero and negative values; the three rates divide by exactly this
denominator. -/
theorem rate_denominator_positive (population : ℚ) (features : FeaturesDict) :
    1 ≤ popDenom population ∧ popDenom population ≠ 0 ∧
    (symptomRates features).1 =
      features.fever_cases / popDenom features.region_population * 10000 ∧
    (symptomRates features).2.1 =
      features.cough_cases / popDenom features.region_population * 10000 ∧
    (symptomRates features).2.2 =
      features.diarrhea_cases / popDenom features.region_population * 10000 :=
  ⟨le_max_right population 1,
   (zero_lt_one.trans_le (le_max_right population 1)).ne', rfl, rfl, rfl⟩

/-- Witness for C10: population 0 (and a negative population) both yield
the denominator 1. -/
theorem rate_denominator_positive_witness :
    (1 ≤ popDenom 0 ∧ popDenom 0 ≠ 0 ∧
      (symptomRates ⟨3, 1, 1, 0⟩).1 = 3 / popDenom (0 : ℚ) * 10000 ∧
      (symptomRates ⟨3, 1, 1, 0⟩).2.1 = 1 / popDenom (0 : ℚ) * 10000 ∧
      (symptomRates ⟨3, 1, 1, 0⟩).2.2 = 1 / popDenom (0 : ℚ) * 10000) :=
  rate_denominator_positive 0 ⟨3, 1, 1, 0⟩

/-- C5: with the model unavailable, `api_predict` fails with the
model-not-trained error — a distinct error from both validation
failures — for every request (even an invalid one, showing the check
precedes parsing), and the store is unchanged. -/
theorem model_unavailable_fails_first (req : ApiRequest)
    (store : List PredictionRecord) :
    api_predict none req store = (Except.error ApiError.modelNotTrained, store) ∧
    (∀ field : String, ApiError.modelNotTrained ≠ ApiError.missingField field) ∧
    ApiError.modelNotTrained ≠ ApiError.invalidNumeric := by
  refine ⟨rfl, ?_, by simp⟩
  intro field h
  exact ApiError.noConfusion h

/-- Witness for C5: a concrete (malformed) request against a missing
model is rejected with the service-level error and the store stays
empty. -/
theorem model_unavailable_fails_first_witness :
    api_predict none ⟨none, none, none, none, none⟩ [] =
      (Except.error ApiError.modelNotTrained, []) :=
  (model_unavailable_fails_first ⟨none, none, none, none, none⟩ []).1

/-- The region_population = 0 request of end-to-end scenario D. -/
def reqPopZero : ApiRequest :=
  ⟨some "Surat", some (some 5), some (some 1), some (some 1), some (some 0)⟩

/-- A constant classifier oracle used for concrete runs. -/
def constOracle : Oracle := fun _ => 1/2

/-- C4 counterexample: the request of scenario D (region_population
submitted as 0) is NOT rejected by `api_predict` — the call succeeds and
a record is persisted, contradicting the claim that a validation error
is raised and nothing is written. -/
theorem input_validation_cx :
    (api_predict (some constOracle) reqPopZero []).1.isOk = true ∧
    (api_predict (some constOracle) reqPopZero []).2.length = 1 := by
  exact ⟨by decide, by decide⟩

/-- C4 (amended): `api_predict` fails with a validation error exactly
when a required numeric field is missing or non-numeric (a missing field
is reported by name; any such failure leaves the store unchanged and is
distinct from the model-unavailable error), while any request whose four
numeric fields parse — including zero or negative values such as
region_population = 0 — is processed and appends exactly one record. -/
theorem input_validation_behaviour (m : Oracle) (req : ApiRequest)
    (store : List PredictionRecord) :
    ((parseFields req).isOk = true ↔
      numericPresent req.fever_cases ∧ numericPresent req.cough_cases ∧
      numericPresent req.diarrhea_cases ∧ numericPresent req.region_population) ∧
    (req.fever_cases = none →
      parseFields req = Except.error (ApiError.missingField "fever_cases")) ∧
    (∀ e, parseFields req = Except.error e →
      api_predict (some m) req store = (Except.error e, store)) ∧
    (∀ e, parseFields req = Except.error e → e ≠ ApiError.modelNotTrained) ∧
    (∀ fever cough diarrhea population : ℚ,
      parseFields req = Except.ok (fever, cough, diarrhea, population) →
      api_predict (some m) req store =
        (Except.ok (assessCore (m [fever, cough, diarrhea, population])
            (req.region.getD "Unknown") fever cough diarrhea population).1,
         store ++ [(assessCore (m [fever, cough, diarrhea, population])
            (req.region.getD "Unknown") fever cough diarrhea population).2])) := by
  obtain ⟨reg, fc, cc, dc, pc⟩ := req
  rcases fc with _ | _ | f <;> rcases cc with _ | _ | c <;>
    rcases dc with _ | _ | d <;> rcases pc with _ | _ | p <;>
    simp [parseFields, parseField, api_predict, numericPresent, Bind.bind,
      Except.bind, Except.isOk, Except.toBool, pure, Except.pure]
  intros
  subst_vars
  exact ⟨rfl, rfl⟩

/-- Witness for C4 (amended): the scenario-D request parses successfully
(population 0 included) and the pipeline appends its record. -/
theorem input_validation_behaviour_witness :
    api_predict (some constOracle) reqPopZero [] =
      (Except.ok (assessCore (constOracle [5, 1, 1, 0]) "Surat" 5 1 1 0).1,
       [] ++ [(assessCore (constOracle [5, 1, 1, 0]) "Surat" 5 1 1 0).2]) :=
  (input_validation_behaviour constOracle reqPopZero []).2.2.2.2 5 1 1 0 (by rfl)

/-- C6: the binary outbreak flag equals 1 exactly when the oracle
probability exceeds 0.5 strictly (so p = 0.5 yields 0), the persisted
record carries the same flag, and both the response and the record
report the probability as `p * 100` rounded to two decimal places. -/
theorem flag_strict_threshold (proba : ℚ) (region : String)
    (fever cough diarrhea population : ℚ) :
    ((assessCore proba region fever cough diarrhea population).1.prediction = 1 ↔
      1/2 < proba) ∧
    ((assessCore proba region fever cough diarrhea population).1.prediction = 0 ↔
      proba ≤ 1/2) ∧
    (assessCore proba region fever cough diarrhea population).2.prediction =
      (assessCore proba region fever cough diarrhea population).1.prediction ∧
    (assessCore (1/2) region fever cough diarrhea population).1.prediction = 0 ∧
    (assessCore proba region fever cough diarrhea population).1.probability =
      round2 (proba * 100) ∧
    (assessCore proba region fever cough diarrhea population).2.probability =
      round2 (proba * 100) := by
  refine ⟨?_, ?_, rfl, by norm_num [assessCore], rfl, rfl⟩
  · simp only [assessCore]
    split_ifs with h
    · simpa using h
    · simpa using h
  · simp only [assessCore]
    split_ifs with h
    · simpa using not_le.mpr h
    · simpa using not_lt.mp h

/-- Witness for C6: at p = 0.5 exactly the flag is 0 and the reported
probability is 50.00. -/
theorem flag_strict_threshold_witness :
    (assessCore (1/2) "Surat" 1 1 1 100).1.prediction = 0 ∧
    (assessCore (1/2) "Surat" 1 1 1 100).1.probability = 50 :=
  ⟨((flag_strict_threshold (1/2) "Surat" 1 1 1 100).2.1).mpr (by norm_num),
   by decide⟩

/-- C9: every record built by the pipeline is consistent between tier
and flag: risk_level "High" forces prediction 1 and risk_level "Low"
forces prediction 0, because 0.70 > 0.5 and 0.30 ≤ 0.5 bracket the flag
threshold. -/
theorem tier_flag_consistent (proba : ℚ) (region : String)
    (fever cough diarrhea population : ℚ) :
    ((assessCore proba region fever cough diarrhea population).2.risk_level = "High" →
      (assessCore proba region fever cough diarrhea population).2.prediction = 1) ∧
    ((assessCore proba region fever cough diarrhea population).2.risk_level = "Low" →
      (assessCore proba region fever cough diarrhea population).2.prediction = 0) := by
  constructor
  · intro h
    have hp : 7/10 ≤ proba :=
      (compute_risk_level_high_iff proba).1 (by simpa [assessCore] using h)
    simp only [assessCore]
    rw [if_pos (by linarith : proba > 1/2)]
  · intro h
    have hp : proba < 3/10 :=
      (compute_risk_level_low_iff proba).1 (by simpa [assessCore] using h)
    simp only [assessCore]
    rw [if_neg (by linarith : ¬proba > 1/2)]

/-- Witness for C9: at p = 0.8 the record is High-tier and flagged 1. -/
theorem tier_flag_consistent_witness :
    (assessCore (4/5) "Surat" 1 1 1 100).2.risk_level = "High" ∧
    (assessCore (4/5) "Surat" 1 1 1 100).2.prediction = 1 :=
  ⟨by decide, (tier_flag_consistent (4/5) "Surat" 1 1 1 100).1 (by decide)⟩

theorem keys_addRecord (stats : List (String × (ℕ × ℕ × ℕ))) (region : String)
    (t : Tier) :
    (addRecord stats region t).map Prod.fst =
      if region ∈ stats.map Prod.fst then stats.map Prod.fst
      else stats.map Prod.fst ++ [region] := by
  induction stats with
  | nil => simp [addRecord]
  | cons hd tl ih =>
    obtain ⟨r, c⟩ := hd
    simp only [addRecord]
    by_cases h : r = region
    · simp [h]
    · simp only [if_neg h, List.map_cons, ih, List.mem_cons]
      by_cases hmem : region ∈ tl.map Prod.fst
      · simp [hmem, Ne.symm h]
      · simp [hmem, Ne.symm h]

theorem mem_keys_addRecord (stats : List (String × (ℕ × ℕ × ℕ)))
    (region' region : String) (t : Tier) :
    region' ∈ (addRecord stats region t).map Prod.fst ↔
      region' ∈ stats.map Prod.fst ∨ region' = region := by
  rw [keys_addRecord]
  split_ifs with h
  · refine ⟨Or.inl, ?_⟩
    rintro (h2 | rfl)
    · exact h2
    · exact h
  · simp

theorem nodup_keys_addRecord (stats : List (String × (ℕ × ℕ × ℕ)))
    (region : String) (t : Tier) (h : (stats.map Prod.fst).Nodup) :
    ((addRecord stats region t).map Prod.fst).Nodup := by
  rw [keys_addRecord]
  split_ifs with hmem
  · exact h
  · simp [List.nodup_append, h, hmem]

theorem pos_addRecord (stats : List (String × (ℕ × ℕ × ℕ))) (region : String)
    (t : Tier) (h : ∀ e ∈ stats, 0 < e.2.1 + e.2.2.1 + e.2.2.2) :
    ∀ e ∈ addRecord stats region t, 0 < e.2.1 + e.2.2.1 + e.2.2.2 := by
  induction stats with
  | nil =>
    intro e he
    simp only [addRecord, List.mem_singleton] at he
    subst he
    cases t <;> simp [bumpTier]
  | cons hd tl ih =>
    obtain ⟨r, c⟩ := hd
    intro e he
    simp only [addRecord] at he
    split_ifs at he with hr
    · rcases List.mem_cons.1 he with rfl | htl
      · have hc := h (r, c) (List.mem_cons_self _ _)
        cases t <;> simp [bumpTier]
      · exact h e (List.mem_cons_of_mem _ htl)
    · rcases List.mem_cons.1 he with rfl | htl
      · exact h (r, c) (List.mem_cons_self _ _)
      · exact ih (fun e' he' => h e' (List.mem_cons_of_mem _ he')) e htl

theorem regionStats_mem_keys (records : List DashRecord) :
    ∀ (stats : List (String × (ℕ × ℕ × ℕ))) (region : String),
      region ∈
        ((records.foldl (fun st r => addRecord st (effRegion r) r.risk_level)
          stats).map Prod.fst) ↔
      region ∈ stats.map Prod.fst ∨ region ∈ records.map effRegion := by
  induction records with
  | nil => simp
  | cons r rs ih =>
    intro stats region
    rw [List.foldl_cons, ih, mem_keys_addRecord]
    simp only [List.map_cons, List.mem_cons]
    tauto

theorem regionStats_nodup_keys (records : List DashRecord) :
    ∀ stats : List (String × (ℕ × ℕ × ℕ)), (stats.map Prod.fst).Nodup →
      (((records.foldl (fun st r => addRecord st (effRegion r) r.risk_level)
        stats).map Prod.fst)).Nodup := by
  induction records with
  | nil => exact fun stats h => h
  | cons r rs ih =>
    intro stats h
    exact ih _ (nodup_keys_addRecord stats (effRegion r) r.risk_level h)

theorem regionStats_pos (records : List DashRecord) :
    ∀ stats : List (String × (ℕ × ℕ × ℕ)),
      (∀ e ∈ stats, 0 < e.2.1 + e.2.2.1 + e.2.2.2) →
      ∀ e ∈ records.foldl (fun st r => addRecord st (effRegion r) r.risk_level)
        stats, 0 < e.2.1 + e.2.2.1 + e.2.2.2 := by
  induction records with
  | nil => exact fun stats h => h
  | cons r rs ih =>
    intro stats h
    exact ih _ (pos_addRecord stats (effRegion r) r.risk_level h)

theorem dashboard_perm (records : List DashRecord) :
    (dashboard records).Perm
      ((regionStats records).map fun rc => mkSummary rc.1 rc.2) :=
  List.perm_insertionSort _ _

/-- C8 counterexample: three records for one region, one of them High,
give a stored High-percentage of 33.3 (the code rounds to one decimal),
which differs from the exact 100 * high_count / total = 100/3 demanded
by the claim. -/
theorem region_aggregation_cx :
    (dashboard [⟨some "A", Tier.High⟩, ⟨some "A", Tier.Low⟩,
        ⟨some "A", Tier.Low⟩]).map RegionSummary.high_percent = [333/10] ∧
    (dashboard [⟨some "A", Tier.High⟩, ⟨some "A", Tier.Low⟩,
        ⟨some "A", Tier.Low⟩]).map RegionSummary.high_count = [1] ∧
    (dashboard [⟨some "A", Tier.High⟩, ⟨some "A", Tier.Low⟩,
        ⟨some "A", Tier.Low⟩]).map RegionSummary.total_predictions = [3] ∧
    (333/10 : ℚ) ≠ 100 * (1 : ℚ) / (3 : ℚ) := by
  refine ⟨by decide, by decide, by decide, by decide⟩

/-- C8 (amended): the aggregator yields one summary per region label
(missing/empty region grouped as "Unknown"), every summary has a
positive total and a High-percentage equal to `100 * high_count / total`
rounded to one decimal place, the list is sorted by descending
High-percentage then descending total, and an empty collection yields an
empty list. -/
theorem region_aggregation (records : List DashRecord) :
    dashboard ([] : List DashRecord) = [] ∧
    (∀ t : Tier, effRegion ⟨none, t⟩ = "Unknown" ∧
      effRegion ⟨some "", t⟩ = "Unknown") ∧
    ((dashboard records).map RegionSummary.region).Nodup ∧
    (∀ region : String,
      region ∈ (dashboard records).map RegionSummary.region ↔
        region ∈ records.map effRegion) ∧
    (∀ s ∈ dashboard records,
      0 < s.total_predictions ∧
      s.high_percent =
        round1 (100 * (s.high_count : ℚ) / (s.total_predictions : ℚ))) ∧
    (dashboard records).Pairwise (fun a b =>
      b.high_percent < a.high_percent ∨
        (a.high_percent = b.high_percent ∧
          b.total_predictions ≤ a.total_predictions)) := by
  have hmapregion :
      ((regionStats records).map fun rc => mkSummary rc.1 rc.2).map
          RegionSummary.region = (regionStats records).map Prod.fst := by
    simp [mkSummary]
  have hperm :
      ((dashboard records).map RegionSummary.region).Perm
        ((regionStats records).map Prod.fst) := by
    rw [← hmapregion]
    exact (dashboard_perm records).map RegionSummary.region
  refine ⟨rfl, fun t => ⟨rfl, rfl⟩, ?_, ?_, ?_, ?_⟩
  · exact hperm.nodup_iff.2 (regionStats_nodup_keys records [] (by simp))
  · intro region
    rw [hperm.mem_iff]
    simpa using regionStats_mem_keys records [] region
  · intro s hs
    have hs2 : s ∈ (regionStats records).map fun rc => mkSummary rc.1 rc.2 :=
      (dashboard_perm records).mem_iff.1 hs
    obtain ⟨⟨r, c⟩, hrc, rfl⟩ := List.mem_map.1 hs2
    have hpos : 0 < c.1 + c.2.1 + c.2.2 :=
      regionStats_pos records [] (by simp) (r, c) hrc
    refine ⟨hpos, ?_⟩
    simp only [mkSummary, if_pos hpos]
    rw [div_mul_eq_mul_div, mul_comm]
  · exact List.sorted_insertionSort summaryLE _

/-- Witness for C8 (amended): the single-record collection for a missing
region yields the "Unknown" summary with total 1 and High-percentage
100, satisfying the rounded formula. -/
theorem region_aggregation_witness :
    0 < (⟨"Unknown", 1, 1, 100⟩ : RegionSummary).total_predictions ∧
    (⟨"Unknown", 1, 1, 100⟩ : RegionSummary).high_percent =
      round1 (100 * ((⟨"Unknown", 1, 1, 100⟩ : RegionSummary).high_count : ℚ) /
        ((⟨"Unknown", 1, 1, 100⟩ : RegionSummary).total_predictions : ℚ)) :=
  (region_aggregation [⟨none, Tier.High⟩]).2.2.2.2.1
    ⟨"Unknown", 1, 1, 100⟩ (by decide)

end Outbreak
